import Mathlib

/-!
Shallow embedding of `reddit_decider/__init__.py`: the hot-reload config
cache client (`Decider`), its per-request evaluation context
(`DeciderContext`), and the request factory (`DeciderContextFactory`).

External collaborators are modelled at their interface:
* the decision engine handle produced by `rust_decider.init` is a function
  from an experiment name and a flat context mapping to a `Choice`
  (mirroring `EngineHandle.choose`);
* the baseplate `FileWatcher.get_data()` call is modelled by its outcome
  `GetDataResult`: either the parsed handle, or one of the two exception
  kinds the source catches (`WatchedFileNotAvailableError`, `TypeError`);
* Python exceptions raised by identity-source attribute access are
  modelled with `Except String`; a total Lean function (no `Except` in its
  result) embeds Python code that cannot raise to its caller;
* calls to `logger.warning` and to the event-logger sink are modelled as
  an explicit trace of `LogEvent`s returned alongside each result.
-/

set_option autoImplicit false

namespace RedditDecider

/-- Python values carried in context fields and event-field mappings. -/
inductive FieldValue where
  | str (s : String)
  | int (n : Int)
  | boolean (b : Bool)
  deriving DecidableEq, Repr

/-- Source line 19: `EMPLOYEE_ROLES = ("employee", "contractor")`. -/
def EMPLOYEE_ROLES : List String := ["employee", "contractor"]

/-- Source line 20: `EVENT_TYPE = "expose"`. -/
def EVENT_TYPE : String := "expose"

/-- Embeds `DeciderContext.__init__` (source lines 29-55): per-request
evaluation context; every field except `user_id` is optional with default
`None`. -/
structure DeciderContext where
  user_id : String
  country_code : Option String := none
  user_is_employee : Option Bool := none
  logged_in : Option Bool := none
  device_id : Option String := none
  request_url : Option String := none
  authentication_token : Option String := none
  app_name : Option String := none
  build_number : Option String := none
  loid : Option String := none
  cookie_created_timestamp : Option FieldValue := none
  user_event_fields : Option (List (String × FieldValue)) := none
  deriving DecidableEq, Repr

/-- Embeds `DeciderContext.get_user_event_fields` (source lines 57-58):
`return self._user_event_fields or {}` — a falsy value (None or the empty
dict) is replaced by the empty dict. -/
def DeciderContext.get_user_event_fields (c : DeciderContext) : List (String × FieldValue) :=
  c.user_event_fields.getD []

/-- Embeds `DeciderContext.to_dict` (source lines 60-73): the flat mapping
handed to the decision engine. An absent optional field stays `none`
(Python `None`); `user_event_fields` has no entry. -/
def DeciderContext.to_dict (c : DeciderContext) : List (String × Option FieldValue) :=
  [("user_id", some (.str c.user_id)),
   ("country_code", c.country_code.map .str),
   ("user_is_employee", c.user_is_employee.map .boolean),
   ("logged_in", c.logged_in.map .boolean),
   ("device_id", c.device_id.map .str),
   ("request_url", c.request_url.map .str),
   ("authentication_token", c.authentication_token.map .str),
   ("app_name", c.app_name.map .str),
   ("build_number", c.build_number.map .str),
   ("loid", c.loid.map .str),
   ("cookie_created_timestamp", c.cookie_created_timestamp)]

/-- Result of `EngineHandle.choose` at the decision-engine boundary:
`choice.err()`, `choice.decision()`, and the raw event descriptors. -/
structure Choice where
  err : Option String
  decision : Option String
  events : List String

/-- Decision-engine handle (the parsed value held by the file watcher):
`choose(experiment_name, ctx)` as a function of the experiment name and
the flat context mapping built by `DeciderContext.to_dict`. -/
def EngineHandle : Type := Option String → List (String × Option FieldValue) → Choice

/-- Outcome of one `FileWatcher.get_data()` call, at the interface the
source relies on: the parsed handle, or one of the two exception kinds the
source catches (`WatchedFileNotAvailableError` or `TypeError`). -/
inductive GetDataResult where
  | ok (handle : EngineHandle)
  | watchedFileNotAvailable (msg : String)
  | typeError (msg : String)

/-- Observable side effects: `logger.warning` calls and event-logger sink
calls (`self._event_logger.log(...)`, with the exposure payload). -/
inductive LogEvent where
  | warning (msg : String)
  | exposure (experiment : Option String) (variant : String)
      (inputs : List (String × FieldValue))
      (context_fields : List (String × Option FieldValue))
  deriving DecidableEq, Repr

/-- Counts the exposure (event-logger sink) calls in a trace. -/
def exposureCount (logs : List LogEvent) : Nat :=
  (logs.filter fun e => match e with | .exposure .. => true | _ => false).length

/-- The exposure sink held by a `Decider`: either the `DebugLogger`
default or a caller-supplied `EventLogger` (opaque beyond identity). -/
inductive EventLoggerKind where
  | debugLogger
  | eventLogger (tag : String)
  deriving DecidableEq, Repr

/-- Request-scoped decision client (source lines 80-105); the config
watcher and server span are external collaborators whose per-call state is
passed explicitly to the methods below. -/
structure Decider where
  decider_context : DeciderContext
  context_name : String
  event_logger : EventLoggerKind

/-- Embeds `Decider.__init__` (source lines 90-105): stores the context
and, via Python truthiness on `event_logger`, defaults the sink to a
`DebugLogger` when none is supplied. -/
def Decider.init (decider_context : DeciderContext) (context_name : String)
    (event_logger : Option EventLoggerKind) : Decider :=
  { decider_context, context_name,
    event_logger :=
      match event_logger with
      | some l => l
      | none => .debugLogger }

/-- Embeds `Decider._get_decider` (source lines 107-114) as a function of
the watcher read outcome: both caught exception kinds are logged at
warning level and turned into `none`; the function is total, so neither
propagates. -/
def Decider.get_decider (watcher : GetDataResult) : Option EngineHandle × List LogEvent :=
  match watcher with
  | .ok h => (some h, [])
  | .watchedFileNotAvailable m =>
      (none, [.warning ("Experiment config unavailable: " ++ m)])
  | .typeError m =>
      (none, [.warning ("Could not load experiment config: " ++ m)])

/-- Python truthiness of an `Optional[str]`: `None` and `""` are falsy. -/
def truthyStr : Option String → Bool
  | none => false
  | some s => !s.isEmpty

/-- Embeds `Decider.get_variant` (source lines 116-185). The exposure
branch of the source (lines 155-183) is commented out (`pass` plus a todo
block), so the `else` arm performs no sink call and `exposure_kwargs` is
never read. Returns the variant (if any) and the trace of side effects. -/
def Decider.get_variant (d : Decider) (watcher : GetDataResult)
    (experiment_name : Option String) (exposure_kwargs : List (String × FieldValue)) :
    Option String × List LogEvent :=
  match Decider.get_decider watcher with
  | (none, logs) => (none, logs ++ [.warning "Rust decider did not initialize."])
  | (some decider, logs) =>
      let ctx := d.decider_context.to_dict
      let choice := decider experiment_name ctx
      let error := choice.err
      let variant := choice.decision
      if truthyStr error then
        (none, logs ++ [.warning ("Encountered error in Rust Decider: " ++ error.getD "")])
      else
        (variant, logs)

/-- Identity-source boundary (the request's `edgecontext`): each attribute
access or accessor call on the upstream object may raise, modelled with
`Except String`. -/
structure IdentitySource where
  user_id : Except String String
  loid_id : Except String (Option String)
  geolocation_country_code : Except String (Option String)
  user_is_logged_in : Except String Bool
  user_has_role : String → Except String Bool
  device_id : Except String (Option String)
  authentication_token : Except String (Option String)
  user_event_fields : Except String (List (String × FieldValue))

/-- The request supplied through `span.context`: its `edgecontext` and the
`request_url` attribute. -/
structure RequestInfo where
  edgecontext : IdentitySource
  request_url : Except String (Option String)

/-- Embeds `DeciderContextFactory.__init__` state used by
`make_object_for_context`: the stored event logger (possibly `None`) and
the optional request-field extractor (the file watcher itself is the
external collaborator whose read outcome is passed per call). -/
structure DeciderContextFactory where
  event_logger : Option EventLoggerKind := none
  request_field_extractor : Option (RequestInfo → Except String (List (String × String))) := none

/-- Embeds the classmethod `DeciderContextFactory.is_employee` (source
lines 228-234): evaluate `ec.user.is_logged_in` first; when logged in,
build the list of `has_role` checks over `EMPLOYEE_ROLES` (the Python list
comprehension evaluates every element) and take `any`; else `False`. -/
def DeciderContextFactory.is_employee (ec : IdentitySource) : Except String Bool := do
  let logged_in ← ec.user_is_logged_in
  if logged_in then do
    let checks ← EMPLOYEE_ROLES.mapM ec.user_has_role
    pure (checks.any id)
  else
    pure false

/-- Embeds the body of the `try` block of `make_object_for_context`
(source lines 254-267): the `DeciderContext(...)` call with its keyword
arguments evaluated left to right; the first raising step aborts the whole
construction (so no partially filled context can result). -/
def build_full_context (ec : IdentitySource) (request : RequestInfo)
    (extracted_fields : List (String × String))
    (user_event_fields : List (String × FieldValue)) :
    Except String DeciderContext := do
  let user_id ← ec.user_id
  let loid ← ec.loid_id
  let country_code ← ec.geolocation_country_code
  let user_is_employee ← DeciderContextFactory.is_employee ec
  let logged_in ← ec.user_is_logged_in
  let device_id ← ec.device_id
  let request_url ← request.request_url
  let authentication_token ← ec.authentication_token
  pure
    { user_id, loid, country_code, user_is_employee := some user_is_employee,
      logged_in := some logged_in, device_id, request_url, authentication_token,
      app_name := extracted_fields.lookup "app_name",
      build_number := extracted_fields.lookup "build_number",
      cookie_created_timestamp := user_event_fields.lookup "cookie_created_timestamp",
      user_event_fields := some user_event_fields }

/-- Embeds source lines 247-250: call the stored extractor on the request
when one is configured, else the empty mapping; the extractor call sits
outside the `try` block, so its failure propagates. -/
def extracted_fields_of (f : DeciderContextFactory) (request : RequestInfo) :
    Except String (List (String × String)) :=
  match f.request_field_extractor with
  | some ext => ext request
  | none => Except.ok []

/-- Embeds the part of `make_object_for_context` after the warm-up read
(source lines 244-279): the extractor call and the
`ec.user.event_fields()` call, both outside the `try` block (their
failures propagate as `Except.error`); the `try` block building the full
context with fallback to a `user_id`-only context on any exception (the
fallback re-reads `ec.user.id`, so its failure also propagates); and the
`Decider(...)` construction. -/
def DeciderContextFactory.build_decider (f : DeciderContextFactory)
    (request : RequestInfo) (name : String) :
    Except String Decider × List LogEvent :=
  let ec := request.edgecontext
  match extracted_fields_of f request with
  | .error e => (.error e, [])
  | .ok extracted_fields =>
    match ec.user_event_fields with
    | .error e => (.error e, [])
    | .ok user_event_fields =>
      match build_full_context ec request extracted_fields user_event_fields with
      | .ok dctx => (.ok (Decider.init dctx name f.event_logger), [])
      | .error exc =>
        let fb_logs :=
          [LogEvent.warning ("Could not create full DeciderContext(): " ++ exc),
           LogEvent.warning "defaulting to DeciderContext() with only user_id."]
        match ec.user_id with
        | .error e2 => (.error e2, fb_logs)
        | .ok uid => (.ok (Decider.init { user_id := uid } name f.event_logger), fb_logs)

/-- Embeds `DeciderContextFactory.make_object_for_context` (source lines
236-279): the warm-up `get_data()` read comes first and its two caught
exception kinds are logged only (its outcome feeds nothing else: the
source discards the value into `_`), then the context assembly and
`Decider` construction of `build_decider`. -/
def DeciderContextFactory.make_object_for_context (f : DeciderContextFactory)
    (watcher : GetDataResult) (request : RequestInfo) (name : String) :
    Except String Decider × List LogEvent :=
  let warm_logs :=
    match watcher with
    | .ok _ => []
    | .watchedFileNotAvailable m => [LogEvent.warning ("Experiment config unavailable: " ++ m)]
    | .typeError m => [LogEvent.warning ("Could not load experiment config: " ++ m)]
  let rest := f.build_decider request name
  (rest.1, warm_logs ++ rest.2)

/-! Concrete fixtures used by the closed instances below. -/

/-- Engine handle whose every `choose` call assigns variant `"treatment"`
with no error (scenario A's artifact: a rule always assigning
`"treatment"`). -/
def engineA : EngineHandle := fun _ _ => { err := none, decision := some "treatment", events := [] }

/-- Engine handle whose every `choose` call reports a non-empty error
while also carrying a variant value. -/
def engineErr : EngineHandle :=
  fun _ _ => { err := some "invalid targeting field", decision := some "control", events := [] }

/-- Minimal evaluation context with only the required `user_id`. -/
def ctxA : DeciderContext := { user_id := "t2_abc" }

/-- Decider over `ctxA` with no event logger supplied. -/
def deciderA : Decider := Decider.init ctxA "decider" none

/-- Identity source on which every access succeeds. -/
def ecGood : IdentitySource :=
  { user_id := .ok "t2_abc", loid_id := .ok (some "t2_loid"),
    geolocation_country_code := .ok (some "US"),
    user_is_logged_in := .ok true,
    user_has_role := fun r => .ok (r == "employee"),
    device_id := .ok (some "dev-1"),
    authentication_token := .ok (some "tok"),
    user_event_fields := .ok [("cookie_created_timestamp", .int 100)] }

/-- Request wrapping `ecGood`. -/
def requestGood : RequestInfo := { edgecontext := ecGood, request_url := .ok (some "https://r") }

/-- Request-field extractor that raises. -/
def badExtractor : RequestInfo → Except String (List (String × String)) :=
  fun _ => .error "extractor failed"

/-- Factory configured with the raising extractor. -/
def factoryBad : DeciderContextFactory :=
  { event_logger := none, request_field_extractor := some badExtractor }

/-- Factory with no event logger and no extractor. -/
def factoryPlain : DeciderContextFactory := {}

/-- Identity source on which only the `loid` access (a step inside the
`try` block) raises. -/
def ecBadLoid : IdentitySource := { ecGood with loid_id := .error "loid missing" }

/-- Request wrapping `ecBadLoid`. -/
def requestBadLoid : RequestInfo :=
  { edgecontext := ecBadLoid, request_url := .ok (some "https://r") }

/-! Claims. -/

/-- C1 (counterexample): the claim states that on a successful choose call
with a non-empty variant, `get_variant` triggers exactly one exposure log
call on the event-logger sink. At this concrete input (scenario A:
experiment `"new_checkout"` always assigned `"treatment"`, context
`userId = "t2_abc"`) `get_variant` does return `"treatment"`, but the
trace holds zero exposure calls, not one: the exposure branch of the
source is commented out. -/
theorem C1_counterexample :
    (deciderA.get_variant (.ok engineA) (some "new_checkout") []).1 = some "treatment" ∧
    exposureCount (deciderA.get_variant (.ok engineA) (some "new_checkout") []).2 ≠ 1 := by
  constructor
  · rfl
  · decide

/-- C1 (amended): when the config cache yields an engine handle and the
choose call returns no error and a non-empty variant, `get_variant`
returns that variant name and triggers no exposure log call at all (the
exposure pipeline exists only as commented-out code). -/
theorem C1_amended_get_variant (d : Decider) (h : EngineHandle) (name : Option String)
    (kwargs : List (String × FieldValue)) (v : String)
    (herr : (h name d.decider_context.to_dict).err = none)
    (hvar : (h name d.decider_context.to_dict).decision = some v) :
    (d.get_variant (.ok h) name kwargs).1 = some v ∧
    exposureCount (d.get_variant (.ok h) name kwargs).2 = 0 := by
  simp [Decider.get_variant, Decider.get_decider, truthyStr, herr, hvar, exposureCount]

/-- C1 (witness): the amended statement at scenario A's concrete input. -/
theorem C1_amended_witness :
    (deciderA.get_variant (.ok engineA) (some "new_checkout") []).1 = some "treatment" ∧
    exposureCount (deciderA.get_variant (.ok engineA) (some "new_checkout") []).2 = 0 :=
  C1_amended_get_variant deciderA engineA (some "new_checkout") [] "treatment" rfl rfl

/-- C2 (counterexample): the claim states that if any step of full context
assembly raises (explicitly including extractor failure), the factory
falls back to a minimal context and the request never fails. At this
concrete input the configured request-field extractor raises; that call
sits before the `try` block, so `make_object_for_context` propagates the
exception instead of returning a Decider. -/
theorem C2_counterexample :
    (factoryBad.make_object_for_context (.ok engineA) requestGood "decider").1 =
      .error "extractor failed" := rfl

/-- C2 (amended): when the extractor call and the `event_fields()` call
(the steps before the `try` block) succeed and `user_id` is readable, a
failure of any step inside the `try` block makes the factory log two
warnings and return a Decider holding the minimal context with only
`user_id` — never a partially filled context; failures of the steps before
the `try` block, however, propagate to the caller. -/
theorem C2_amended_minimal_fallback (f : DeciderContextFactory) (watcher : GetDataResult)
    (request : RequestInfo) (name : String) (ef : List (String × String))
    (uef : List (String × FieldValue)) (uid e : String)
    (hext : extracted_fields_of f request = .ok ef)
    (huef : request.edgecontext.user_event_fields = .ok uef)
    (hfull : build_full_context request.edgecontext request ef uef = .error e)
    (huid : request.edgecontext.user_id = .ok uid) :
    (f.make_object_for_context watcher request name).1 =
      .ok (Decider.init { user_id := uid } name f.event_logger) ∧
    ∃ warm_logs, (f.make_object_for_context watcher request name).2 =
      warm_logs ++
        [LogEvent.warning ("Could not create full DeciderContext(): " ++ e),
         LogEvent.warning "defaulting to DeciderContext() with only user_id."] := by
  simp [DeciderContextFactory.make_object_for_context, DeciderContextFactory.build_decider,
    hext, huef, hfull, huid]

/-- C2 (witness): the amended statement at a concrete input where the
`loid` access inside the `try` block raises. -/
theorem C2_amended_witness :
    (factoryPlain.make_object_for_context (.ok engineA) requestBadLoid "decider").1 =
      .ok (Decider.init { user_id := "t2_abc" } "decider" none) ∧
    ∃ warm_logs,
      (factoryPlain.make_object_for_context (.ok engineA) requestBadLoid "decider").2 =
        warm_logs ++
          [LogEvent.warning "Could not create full DeciderContext(): loid missing",
           LogEvent.warning "defaulting to DeciderContext() with only user_id."] :=
  C2_amended_minimal_fallback factoryPlain (.ok engineA) requestBadLoid "decider"
    [] [("cookie_created_timestamp", .int 100)] "t2_abc" "loid missing" rfl rfl rfl rfl

/-- C3: when the choose call reports a non-empty error string,
`get_variant` logs one warning naming the error and returns `none`,
whatever variant value the choice also carries. -/
theorem C3_error_precedence (d : Decider) (h : EngineHandle) (name : Option String)
    (kwargs : List (String × FieldValue)) (e : String)
    (herr : (h name d.decider_context.to_dict).err = some e) (hne : e ≠ "") :
    (d.get_variant (.ok h) name kwargs).1 = none ∧
    (d.get_variant (.ok h) name kwargs).2 =
      [.warning ("Encountered error in Rust Decider: " ++ e)] := by
  have : e.isEmpty = false := by
    cases he : e.isEmpty
    · rfl
    · exact absurd ((String.isEmpty_iff e).mp he) hne
  simp [Decider.get_variant, Decider.get_decider, truthyStr, herr, this]

/-- C3 (witness): the statement at a concrete input whose choose result
carries both a non-empty error and a variant value. -/
theorem C3_witness :
    (deciderA.get_variant (.ok engineErr) (some "geo_test") []).1 = none ∧
    (deciderA.get_variant (.ok engineErr) (some "geo_test") []).2 =
      [.warning "Encountered error in Rust Decider: invalid targeting field"] :=
  C3_error_precedence deciderA engineErr (some "geo_test") [] "invalid targeting field"
    rfl (by decide)

/-- C4: when the watcher signals that the config has never loaded,
`get_variant` logs warnings, returns `none`, and the trace holds no
exposure call; the embedding is a total function, so no exception
reaches the caller. -/
theorem C4_unavailable_returns_none (d : Decider) (msg : String) (name : Option String)
    (kwargs : List (String × FieldValue)) :
    (d.get_variant (.watchedFileNotAvailable msg) name kwargs).1 = none ∧
    (d.get_variant (.watchedFileNotAvailable msg) name kwargs).2 =
      [.warning ("Experiment config unavailable: " ++ msg),
       .warning "Rust decider did not initialize."] ∧
    exposureCount (d.get_variant (.watchedFileNotAvailable msg) name kwargs).2 = 0 :=
  ⟨rfl, rfl, rfl⟩

/-- C5: both exception kinds raised by the watched-config read
(`WatchedFileNotAvailableError` for unavailability or wrapped parse
failure, `TypeError` for a type mismatch) are caught by `_get_decider`,
logged as one warning each, and turned into `none` ("no update this
cycle"); `get_decider` is total over every watcher outcome, so neither
propagates. -/
theorem C5_get_decider_catches (m n : String) :
    Decider.get_decider (.watchedFileNotAvailable m) =
      (none, [.warning ("Experiment config unavailable: " ++ m)]) ∧
    Decider.get_decider (.typeError n) =
      (none, [.warning ("Could not load experiment config: " ++ n)]) :=
  ⟨rfl, rfl⟩

/-- C6: `is_employee` returns true iff the identity is logged in and holds
at least one of the privileged roles `"employee"` or `"contractor"`, and
false in every other combination, including when not logged in. -/
theorem C6_is_employee (ec : IdentitySource) (li r1 r2 : Bool)
    (h1 : ec.user_is_logged_in = .ok li)
    (h2 : ec.user_has_role "employee" = .ok r1)
    (h3 : ec.user_has_role "contractor" = .ok r2) :
    DeciderContextFactory.is_employee ec = .ok (li && (r1 || r2)) := by
  cases li <;>
    simp [DeciderContextFactory.is_employee, EMPLOYEE_ROLES, h1, h2, h3,
      List.mapM, List.mapM.loop, Except.map, Except.pure, Except.bind, bind, pure,
      Functor.map]

/-- C6 (witness): the statement at a concrete logged-in identity holding
the `"employee"` role. -/
theorem C6_witness : DeciderContextFactory.is_employee ecGood = .ok (true && (true || false)) :=
  C6_is_employee ecGood true true false rfl rfl rfl

/-- C7: the flat mapping `to_dict` hands to the engine carries exactly the
eleven context keys (so never `user_event_fields`), and each optional
field appears as its own value — `none` (explicit null) when absent, never
an empty string. -/
theorem C7_to_dict_shape (c : DeciderContext) :
    c.to_dict.map Prod.fst =
      ["user_id", "country_code", "user_is_employee", "logged_in", "device_id",
       "request_url", "authentication_token", "app_name", "build_number", "loid",
       "cookie_created_timestamp"] ∧
    c.to_dict.lookup "user_event_fields" = none ∧
    c.to_dict.lookup "user_id" = some (some (.str c.user_id)) ∧
    c.to_dict.lookup "country_code" = some (c.country_code.map .str) ∧
    c.to_dict.lookup "user_is_employee" = some (c.user_is_employee.map .boolean) ∧
    c.to_dict.lookup "logged_in" = some (c.logged_in.map .boolean) ∧
    c.to_dict.lookup "device_id" = some (c.device_id.map .str) ∧
    c.to_dict.lookup "request_url" = some (c.request_url.map .str) ∧
    c.to_dict.lookup "authentication_token" = some (c.authentication_token.map .str) ∧
    c.to_dict.lookup "app_name" = some (c.app_name.map .str) ∧
    c.to_dict.lookup "build_number" = some (c.build_number.map .str) ∧
    c.to_dict.lookup "loid" = some (c.loid.map .str) ∧
    c.to_dict.lookup "cookie_created_timestamp" = some c.cookie_created_timestamp := by
  refine ⟨rfl, ?_, ?_, ?_, ?_, ?_, ?_, ?_, ?_, ?_, ?_, ?_, ?_⟩ <;>
    simp [DeciderContext.to_dict, List.lookup]

/-- C8: the warm-up config read at the start of `make_object_for_context`
only contributes warning log entries on failure; the returned outcome is
the same for every watcher state, so a failed warm-up read never prevents
the factory from building the context and returning a Decider. -/
theorem C8_warmup_logged_only (f : DeciderContextFactory) (request : RequestInfo)
    (name m : String) (h : EngineHandle) (w : GetDataResult) :
    (f.make_object_for_context w request name).1 =
      (f.make_object_for_context (.ok h) request name).1 ∧
    (f.make_object_for_context (.watchedFileNotAvailable m) request name).2 =
      .warning ("Experiment config unavailable: " ++ m) ::
        (f.make_object_for_context (.ok h) request name).2 ∧
    (f.make_object_for_context (.typeError m) request name).2 =
      .warning ("Could not load experiment config: " ++ m) ::
        (f.make_object_for_context (.ok h) request name).2 := by
  cases w <;> simp [DeciderContextFactory.make_object_for_context]

/-- C9: `get_variant` never reads the caller-supplied exposure keyword
arguments (their only use in the source is commented out), so its whole
result — variant and trace — is the same for any two choices of them. -/
theorem C9_kwargs_independence (d : Decider) (w : GetDataResult) (name : Option String)
    (k1 k2 : List (String × FieldValue)) :
    d.get_variant w name k1 = d.get_variant w name k2 := rfl

/-- C10: a Decider constructed with `event_logger = None` holds the
`DebugLogger` default as its exposure sink. -/
theorem C10_default_event_logger (dc : DeciderContext) (name : String) :
    (Decider.init dc name none).event_logger = EventLoggerKind.debugLogger := rfl

end RedditDecider
